import Mathlib

/-!
# Painter base classes of the MantaFlow GL viewer (`source/gui/painter.h`)

A shallow embedding of `Painter` and `LockedObjPainter`:

* the geometry helpers `addVec` and `addQuad`, which append to a pair of
  `std::vector<float>` buffers;
* the lazily acquired vertex-buffer handle (`setupBuffer`), the widget
  attachment (`attachGLWidget`) and the constructors;
* the two display-mode enumerations.

Buffers are lists, `push_back` appends one element at the end.  The scalar type
of the buffers is a parameter `α` carrying the multiplication used for
`vertex.x * mod`; nothing else about the arithmetic is assumed.  The two buffer
arguments of `addVec` and `addQuad` are taken to be two distinct vectors and
are threaded through as a pair.
-/

set_option linter.dupNamespace false

namespace Manta

/-! ## Data model -/

/-- Three-component vector `Vec3`, with the public members `x`, `y`, `z`. -/
structure Vec3 (α : Type) where
  x : α
  y : α
  z : α
deriving DecidableEq, Repr

/-- The `push_back` member of `std::vector`: one element is added at the end. -/
def push_back {α : Type} (v : List α) (a : α) : List α :=
  v ++ [a]

/-- OpenGL object name `GLuint`; zero is the "no buffer" value tested by `!mBuffer`. -/
abbrev GLuint := Nat

/-- Address of an object the painter only points to (`QWidget*`, `PbClass*`);
`none` in an `Option Ptr` is the null pointer. -/
abbrev Ptr := Nat

/-- Modelled from the spec: `glwidget.h` is not among the sources, so the GL
widget is represented by the one thing the painter asks of it, the buffer
handle its `getBufferId()` reports ("acquireBufferHandle() -> handle"). -/
structure GLWidget where
  getBufferId : GLuint
deriving DecidableEq, Repr

/-- Display modes of real grids, `enum RealDisplayModes`. -/
inductive RealDisplayModes where
  | RealDispOff
  | RealDispStd
  | RealDispLevelset
  | RealDispShadeVol
  | RealDispShadeSurf
  | NumRealDispModes
deriving DecidableEq, Repr

/-- Display modes of vector grids, `enum VecDisplayModes`. -/
inductive VecDisplayModes where
  | VecDispOff
  | VecDispCentered
  | VecDispStaggered
  | VecDispUv
  | NumVecDispModes
deriving DecidableEq, Repr

/-- Integer value of a `RealDisplayModes` enumerator: `RealDispOff=0`, every
later enumerator one more than the one before it. -/
def RealDisplayModes.toInt : RealDisplayModes → Int
  | .RealDispOff => 0
  | .RealDispStd => 0 + 1
  | .RealDispLevelset => 0 + 1 + 1
  | .RealDispShadeVol => 0 + 1 + 1 + 1
  | .RealDispShadeSurf => 0 + 1 + 1 + 1 + 1
  | .NumRealDispModes => 0 + 1 + 1 + 1 + 1 + 1

/-- Integer value of a `VecDisplayModes` enumerator: `VecDispOff=0`, every
later enumerator one more than the one before it. -/
def VecDisplayModes.toInt : VecDisplayModes → Int
  | .VecDispOff => 0
  | .VecDispCentered => 0 + 1
  | .VecDispStaggered => 0 + 1 + 1
  | .VecDispUv => 0 + 1 + 1 + 1
  | .NumVecDispModes => 0 + 1 + 1 + 1 + 1

/-- State of the base class `Painter`: the `QObject` parent handed to the
constructor and the protected member `mGlWidget`. -/
structure Painter where
  par : Option Ptr
  mGlWidget : Option GLWidget
deriving DecidableEq, Repr

/-- State of `LockedObjPainter`: the `Painter` base and the four protected members. -/
structure LockedObjPainter extends Painter where
  mRequestUpdate : Bool
  mObject : Option Ptr
  mObjIndex : Int
  mBuffer : GLuint
deriving DecidableEq, Repr

/-! ## Constructors and widget attachment -/

/-- Constructor `Painter(QWidget* par = 0) : QObject(par), mGlWidget(nullptr) {}`. -/
def Painter.Painter (par : Option Ptr) : Manta.Painter :=
  { par := par, mGlWidget := none }

/-- Member `void attachGLWidget(GLWidget* widget) { mGlWidget = widget; }`. -/
def Painter.attachGLWidget (p : Manta.Painter) (widget : Option GLWidget) : Manta.Painter :=
  { p with mGlWidget := widget }

/-- Constructor `LockedObjPainter(GLuint buffer, QWidget* par = 0)`, with the
initialiser list `Painter(par), mRequestUpdate(false), mObject(NULL),
mObjIndex(-1), mBuffer(buffer)`. -/
def LockedObjPainter.LockedObjPainter (buffer : GLuint) (par : Option Ptr) :
    Manta.LockedObjPainter :=
  { toPainter := Manta.Painter.Painter par
    mRequestUpdate := false
    mObject := none
    mObjIndex := -1
    mBuffer := buffer }

/-- Inherited `attachGLWidget` called on a `LockedObjPainter`. -/
def LockedObjPainter.attachGLWidget (p : Manta.LockedObjPainter) (widget : Option GLWidget) :
    Manta.LockedObjPainter :=
  { p with toPainter := p.toPainter.attachGLWidget widget }

/-! ## Buffer handle -/

/-- Member `setupBuffer`: when `mBuffer` is zero and a widget is attached the
handle is fetched from the widget; the (possibly updated) `mBuffer` is
returned.  The result pairs the return value with the painter afterwards. -/
def LockedObjPainter.setupBuffer (p : Manta.LockedObjPainter) :
    GLuint × Manta.LockedObjPainter :=
  let p :=
    if p.mBuffer = 0 then
      match p.mGlWidget with
      | some w => { p with mBuffer := w.getBufferId }
      | none => p
    else p
  (p.mBuffer, p)

/-! ## Geometry emission -/

/-- Member `addVec`: three `push_back`s of the scaled vertex into `vertices`,
then three of the color into `colors`.  Returns the two buffers afterwards. -/
def addVec {α : Type} [Mul α] (vertices colors : List α) (vertex color : Vec3 α) (mod : α) :
    List α × List α :=
  let vertices := push_back vertices (vertex.x * mod)
  let vertices := push_back vertices (vertex.y * mod)
  let vertices := push_back vertices (vertex.z * mod)
  let colors := push_back colors color.x
  let colors := push_back colors color.y
  let colors := push_back colors color.z
  (vertices, colors)

/-- Index sequence of the range-for in `addQuad`: triangle 0,1,2 then triangle 0,2,3. -/
def quadIndices : List (Fin 4) := [0, 1, 2, 0, 2, 3]

/-- Body of the loop in `addQuad` for one index `i`. -/
def addQuadStep {α : Type} [Mul α] (boxVertices : Fin 4 → Vec3 α) (color : Vec3 α) (mod : α)
    (buf : List α × List α) (i : Fin 4) : List α × List α :=
  let vertices := push_back buf.1 ((boxVertices i).x * mod)
  let vertices := push_back vertices ((boxVertices i).y * mod)
  let vertices := push_back vertices ((boxVertices i).z * mod)
  let colors := push_back buf.2 color.x
  let colors := push_back colors color.y
  let colors := push_back colors color.z
  (vertices, colors)

/-- Member `addQuad`: the loop body is run for `i` in `{0, 1, 2, 0, 2, 3}`, in order. -/
def addQuad {α : Type} [Mul α] (vertices colors : List α) (boxVertices : Fin 4 → Vec3 α)
    (color : Vec3 α) (mod : α) : List α × List α :=
  quadIndices.foldl (addQuadStep boxVertices color mod) (vertices, colors)

/-! ## Sequences of calls -/

/-- One call of a geometry helper, with its by-value arguments. -/
inductive EmitCall (α : Type) where
  | vec (vertex color : Vec3 α) (mod : α)
  | quad (boxVertices : Fin 4 → Vec3 α) (color : Vec3 α) (mod : α)

/-- Whether the call is an `addQuad`. -/
def EmitCall.isQuad {α : Type} : EmitCall α → Bool
  | .vec _ _ _ => false
  | .quad _ _ _ => true

/-- Whether the call is an `addVec`. -/
def EmitCall.isVec {α : Type} : EmitCall α → Bool
  | .vec _ _ _ => true
  | .quad _ _ _ => false

/-- Effect of one call on the pair of buffers it is given. -/
def EmitCall.run {α : Type} [Mul α] (c : EmitCall α) (buf : List α × List α) :
    List α × List α :=
  match c with
  | .vec vertex color mod => addVec buf.1 buf.2 vertex color mod
  | .quad boxVertices color mod => addQuad buf.1 buf.2 boxVertices color mod

/-- Effect of a finite sequence of calls, first call first, on one pair of buffers. -/
def runCalls {α : Type} [Mul α] : List (EmitCall α) → List α × List α → List α × List α
  | [], buf => buf
  | c :: cs, buf => runCalls cs (c.run buf)

/-- One step of a painter's life as far as the buffer handle is concerned:
a widget (or null) is attached, or `setupBuffer` is called. -/
inductive HandleOp where
  | attach (widget : Option GLWidget)
  | setup
deriving DecidableEq, Repr

/-- Runs a sequence of steps, first step first; returns the values returned by
the `setupBuffer` calls, in call order, and the painter afterwards. -/
def runHandleOps : List HandleOp → Manta.LockedObjPainter → List GLuint × Manta.LockedObjPainter
  | [], p => ([], p)
  | .attach widget :: ops, p => runHandleOps ops (p.attachGLWidget widget)
  | .setup :: ops, p =>
      let r := p.setupBuffer
      let rest := runHandleOps ops r.2
      (r.1 :: rest.1, rest.2)

/-! ## Sample data -/

/-- Corners of the unit square in the plane `z = 0`, counter-clockwise. -/
def unitSquare : Fin 4 → Vec3 Int
  | 0 => ⟨0, 0, 0⟩
  | 1 => ⟨1, 0, 0⟩
  | 2 => ⟨1, 1, 0⟩
  | 3 => ⟨0, 1, 0⟩

/-- A color triple used in the examples. -/
def sampleColor : Vec3 Int := ⟨7, 8, 9⟩

/-- A freshly constructed painter with no buffer yet, to which a widget
reporting handle 5 has been attached. -/
def samplePainter : Manta.LockedObjPainter :=
  (LockedObjPainter.LockedObjPainter 0 none).attachGLWidget (some ⟨5⟩)

/-! ## Helper lemmas -/

section Lemmas

variable {α : Type} [Mul α]

theorem addVec_eq (vertices colors : List α) (vertex color : Vec3 α) (mod : α) :
    addVec vertices colors vertex color mod =
      (vertices ++ [vertex.x * mod, vertex.y * mod, vertex.z * mod],
        colors ++ [color.x, color.y, color.z]) := by
  simp [addVec, push_back]

theorem addQuadStep_eq (boxVertices : Fin 4 → Vec3 α) (color : Vec3 α) (mod : α)
    (buf : List α × List α) (i : Fin 4) :
    addQuadStep boxVertices color mod buf i =
      addVec buf.1 buf.2 (boxVertices i) color mod := by
  rfl

theorem addQuad_eq (vertices colors : List α) (c : Fin 4 → Vec3 α) (color : Vec3 α) (mod : α) :
    addQuad vertices colors c color mod =
      (vertices ++
          [(c 0).x * mod, (c 0).y * mod, (c 0).z * mod,
           (c 1).x * mod, (c 1).y * mod, (c 1).z * mod,
           (c 2).x * mod, (c 2).y * mod, (c 2).z * mod,
           (c 0).x * mod, (c 0).y * mod, (c 0).z * mod,
           (c 2).x * mod, (c 2).y * mod, (c 2).z * mod,
           (c 3).x * mod, (c 3).y * mod, (c 3).z * mod],
        colors ++
          [color.x, color.y, color.z, color.x, color.y, color.z,
           color.x, color.y, color.z, color.x, color.y, color.z,
           color.x, color.y, color.z, color.x, color.y, color.z]) := by
  simp [addQuad, quadIndices, addQuadStep, push_back]

theorem addVec_length (vertices colors : List α) (vertex color : Vec3 α) (mod : α) :
    (addVec vertices colors vertex color mod).1.length = vertices.length + 3 ∧
      (addVec vertices colors vertex color mod).2.length = colors.length + 3 := by
  simp [addVec_eq]

theorem addQuad_length (vertices colors : List α) (c : Fin 4 → Vec3 α) (color : Vec3 α)
    (mod : α) :
    (addQuad vertices colors c color mod).1.length = vertices.length + 18 ∧
      (addQuad vertices colors c color mod).2.length = colors.length + 18 := by
  simp [addQuad_eq]

theorem EmitCall.run_length (c : EmitCall α) (buf : List α × List α)
    (h : buf.1.length = buf.2.length) : (c.run buf).1.length = (c.run buf).2.length := by
  cases c with
  | vec vertex color mod => simp [EmitCall.run, addVec_eq, h]
  | quad boxVertices color mod => simp [EmitCall.run, addQuad_eq, h]

theorem runCalls_length_eq (cs : List (EmitCall α)) (buf : List α × List α)
    (h : buf.1.length = buf.2.length) :
    (runCalls cs buf).1.length = (runCalls cs buf).2.length := by
  induction cs generalizing buf with
  | nil => simpa [runCalls] using h
  | cons c cs ih => exact ih (c.run buf) (c.run_length buf h)

theorem runCalls_length_quads (cs : List (EmitCall α)) (buf : List α × List α)
    (h : ∀ c ∈ cs, c.isQuad = true) :
    (runCalls cs buf).1.length = buf.1.length + 18 * cs.length ∧
      (runCalls cs buf).2.length = buf.2.length + 18 * cs.length := by
  induction cs generalizing buf with
  | nil => simp [runCalls]
  | cons c cs ih =>
    have hc : c.isQuad = true := h c (List.mem_cons_self c cs)
    have hcs : ∀ d ∈ cs, d.isQuad = true := fun d hd => h d (List.mem_cons_of_mem c hd)
    cases c with
    | vec vertex color mod => simp [EmitCall.isQuad] at hc
    | quad boxVertices color mod =>
      have hl := addQuad_length buf.1 buf.2 boxVertices color mod
      have hr := ih (addQuad buf.1 buf.2 boxVertices color mod) hcs
      simp only [runCalls, EmitCall.run, List.length_cons]
      omega

theorem runCalls_length_vecs (cs : List (EmitCall α)) (buf : List α × List α)
    (h : ∀ c ∈ cs, c.isVec = true) :
    (runCalls cs buf).1.length = buf.1.length + 3 * cs.length ∧
      (runCalls cs buf).2.length = buf.2.length + 3 * cs.length := by
  induction cs generalizing buf with
  | nil => simp [runCalls]
  | cons c cs ih =>
    have hc : c.isVec = true := h c (List.mem_cons_self c cs)
    have hcs : ∀ d ∈ cs, d.isVec = true := fun d hd => h d (List.mem_cons_of_mem c hd)
    cases c with
    | quad boxVertices color mod => simp [EmitCall.isVec] at hc
    | vec vertex color mod =>
      have hl := addVec_length buf.1 buf.2 vertex color mod
      have hr := ih (addVec buf.1 buf.2 vertex color mod) hcs
      simp only [runCalls, EmitCall.run, List.length_cons]
      omega

end Lemmas

theorem setupBuffer_of_ne_zero (q : LockedObjPainter) (hq : q.mBuffer ≠ 0) :
    q.setupBuffer = (q.mBuffer, q) := by
  simp [LockedObjPainter.setupBuffer, hq]

theorem attachGLWidget_mBuffer (q : LockedObjPainter) (widget : Option GLWidget) :
    (q.attachGLWidget widget).mBuffer = q.mBuffer := rfl

theorem runHandleOps_of_ne_zero (ops : List HandleOp) (q : LockedObjPainter)
    (hq : q.mBuffer ≠ 0) :
    (runHandleOps ops q).1 = List.replicate (ops.count HandleOp.setup) q.mBuffer ∧
      (runHandleOps ops q).2.mBuffer = q.mBuffer := by
  induction ops generalizing q with
  | nil => simp [runHandleOps]
  | cons op ops ih =>
    cases op with
    | attach widget =>
      have h := ih (q.attachGLWidget widget) (by simpa [attachGLWidget_mBuffer] using hq)
      simpa [runHandleOps, attachGLWidget_mBuffer] using h
    | setup =>
      have h := ih q hq
      simp [runHandleOps, setupBuffer_of_ne_zero q hq, h.1, h.2, List.replicate_succ]

/-! ## Geometry emission: contents -/

section Emission

variable {α : Type} [Mul α]

/-- C1: `addQuad` leaves `vertices` equal to the old vertices followed by exactly
the 18 floats `c[i].x*mod, c[i].y*mod, c[i].z*mod` for `i` running over
0,1,2,0,2,3 in that order, and `colors` equal to the old colors followed by six
copies of the unscaled `(color.x, color.y, color.z)`; the corners are taken as
they come, whatever they are. -/
theorem addQuad_appends_two_triangles (vertices colors : List α) (c : Fin 4 → Vec3 α)
    (color : Vec3 α) (mod : α) :
    addQuad vertices colors c color mod =
      (vertices ++
          [(c 0).x * mod, (c 0).y * mod, (c 0).z * mod,
           (c 1).x * mod, (c 1).y * mod, (c 1).z * mod,
           (c 2).x * mod, (c 2).y * mod, (c 2).z * mod,
           (c 0).x * mod, (c 0).y * mod, (c 0).z * mod,
           (c 2).x * mod, (c 2).y * mod, (c 2).z * mod,
           (c 3).x * mod, (c 3).y * mod, (c 3).z * mod],
        colors ++
          [color.x, color.y, color.z, color.x, color.y, color.z,
           color.x, color.y, color.z, color.x, color.y, color.z,
           color.x, color.y, color.z, color.x, color.y, color.z]) :=
  addQuad_eq vertices colors c color mod

/-- C2: `addVec` leaves `vertices` equal to the old vertices followed by
`(position.x*mod, position.y*mod, position.z*mod)` and `colors` equal to the old
colors followed by `(color.x, color.y, color.z)`; the resulting color buffer is
the same for every scale `mod`. -/
theorem addVec_appends_point (vertices colors : List α) (position color : Vec3 α) (mod : α) :
    addVec vertices colors position color mod =
        (vertices ++ [position.x * mod, position.y * mod, position.z * mod],
          colors ++ [color.x, color.y, color.z]) ∧
      ∀ mod2 : α,
        (addVec vertices colors position color mod2).2 =
          (addVec vertices colors position color mod).2 := by
  refine ⟨addVec_eq vertices colors position color mod, fun mod2 => ?_⟩
  simp [addVec_eq]

/-- C3: `addVec` and `addQuad` are defined for all buffers, the empty ones
included, and the buffers before the call are initial segments of the buffers
after the call. -/
theorem emit_keeps_old_contents (vertices colors : List α) (vertex color : Vec3 α)
    (c : Fin 4 → Vec3 α) (mod : α) :
    (∃ r, addVec vertices colors vertex color mod = r ∧ vertices <+: r.1 ∧ colors <+: r.2) ∧
      (∃ r, addQuad vertices colors c color mod = r ∧ vertices <+: r.1 ∧ colors <+: r.2) ∧
      (∃ r, addVec ([] : List α) [] vertex color mod = r ∧ r.1.length = 3 ∧ r.2.length = 3) ∧
      (∃ r, addQuad ([] : List α) [] c color mod = r ∧ r.1.length = 18 ∧ r.2.length = 18) := by
  refine ⟨⟨_, rfl, ?_, ?_⟩, ⟨_, rfl, ?_, ?_⟩, ⟨_, rfl, ?_, ?_⟩, ⟨_, rfl, ?_, ?_⟩⟩
  · rw [addVec_eq]; exact ⟨_, rfl⟩
  · rw [addVec_eq]; exact ⟨_, rfl⟩
  · rw [addQuad_eq]; exact ⟨_, rfl⟩
  · rw [addQuad_eq]; exact ⟨_, rfl⟩
  · simp [addVec_eq]
  · simp [addVec_eq]
  · simp [addQuad_eq]
  · simp [addQuad_eq]

/-- C10: the buffers produced by `addQuad(vertices, colors, c, color, mod)` are
the buffers produced by calling `addVec(vertices, colors, c[i], color, mod)`
successively for `i = 0, 1, 2, 0, 2, 3`. -/
theorem addQuad_eq_six_addVec (vertices colors : List α) (c : Fin 4 → Vec3 α)
    (color : Vec3 α) (mod : α) :
    addQuad vertices colors c color mod =
      (let b1 := addVec vertices colors (c 0) color mod
       let b2 := addVec b1.1 b1.2 (c 1) color mod
       let b3 := addVec b2.1 b2.2 (c 2) color mod
       let b4 := addVec b3.1 b3.2 (c 0) color mod
       let b5 := addVec b4.1 b4.2 (c 2) color mod
       addVec b5.1 b5.2 (c 3) color mod) := by
  simp [addQuad, quadIndices, addQuadStep_eq]

end Emission

/-! ## Display modes and construction -/

/-- C7: the two display-mode families agree on the values 0 and 1:
`RealDispOff = VecDispOff = 0` and `RealDispStd = VecDispCentered = 1`, and in
each family no other enumerator has the value 0 or 1. -/
theorem display_modes_share_off_and_std :
    RealDisplayModes.RealDispOff.toInt = 0 ∧ VecDisplayModes.VecDispOff.toInt = 0 ∧
      RealDisplayModes.RealDispStd.toInt = 1 ∧ VecDisplayModes.VecDispCentered.toInt = 1 ∧
      (∀ m : RealDisplayModes, (m.toInt = 0 ↔ m = .RealDispOff) ∧
        (m.toInt = 1 ↔ m = .RealDispStd)) ∧
      (∀ m : VecDisplayModes, (m.toInt = 0 ↔ m = .VecDispOff) ∧
        (m.toInt = 1 ↔ m = .VecDispCentered)) := by
  refine ⟨rfl, rfl, rfl, rfl, ?_, ?_⟩
  · intro m; cases m <;> simp [RealDisplayModes.toInt]
  · intro m; cases m <;> simp [VecDisplayModes.toInt]

/-- C8: for every buffer handle `b` and parent, a newly constructed
`LockedObjPainter` has `mObject = null`, `mObjIndex = -1`,
`mRequestUpdate = false`, `mBuffer = b` and no GL widget attached. -/
theorem new_painter_is_idle (b : GLuint) (par : Option Ptr) :
    (LockedObjPainter.LockedObjPainter b par).mObject = none ∧
      (LockedObjPainter.LockedObjPainter b par).mObjIndex = -1 ∧
      (LockedObjPainter.LockedObjPainter b par).mRequestUpdate = false ∧
      (LockedObjPainter.LockedObjPainter b par).mBuffer = b ∧
      (LockedObjPainter.LockedObjPainter b par).mGlWidget = none :=
  ⟨rfl, rfl, rfl, rfl, rfl⟩

/-! ## Buffer lengths -/

/-- C4: every `addVec` appends exactly 3 floats to `vertices` and 3 to `colors`,
every `addQuad` exactly 18 to each; so equality of the two lengths is kept by
every call, and from two empty buffers it holds after every finite sequence of
`addVec` and `addQuad` calls. -/
theorem buffer_lengths_stay_equal {α : Type} [Mul α] :
    (∀ (vertices colors : List α) (vertex color : Vec3 α) (mod : α),
        (addVec vertices colors vertex color mod).1.length = vertices.length + 3 ∧
          (addVec vertices colors vertex color mod).2.length = colors.length + 3) ∧
      (∀ (vertices colors : List α) (c : Fin 4 → Vec3 α) (color : Vec3 α) (mod : α),
        (addQuad vertices colors c color mod).1.length = vertices.length + 18 ∧
          (addQuad vertices colors c color mod).2.length = colors.length + 18) ∧
      (∀ (vertices colors : List α) (vertex color : Vec3 α) (mod : α),
        vertices.length = colors.length →
          (addVec vertices colors vertex color mod).1.length =
            (addVec vertices colors vertex color mod).2.length) ∧
      (∀ (vertices colors : List α) (c : Fin 4 → Vec3 α) (color : Vec3 α) (mod : α),
        vertices.length = colors.length →
          (addQuad vertices colors c color mod).1.length =
            (addQuad vertices colors c color mod).2.length) ∧
      (∀ cs : List (EmitCall α),
        (runCalls cs ([], [])).1.length = (runCalls cs ([], [])).2.length) := by
  refine ⟨addVec_length, addQuad_length, ?_, ?_, ?_⟩
  · intro vertices colors vertex color mod h
    simp [addVec_eq, h]
  · intro vertices colors c color mod h
    simp [addQuad_eq, h]
  · intro cs
    exact runCalls_length_eq cs ([], []) rfl

/-- C4, at buffers of three entries each and a quad of the unit square. -/
theorem buffer_lengths_stay_equal_witness :
    ([1, 2, 3] : List Int).length = [4, 5, 6].length ∧
      (addQuad [1, 2, 3] [4, 5, 6] unitSquare sampleColor 2).1.length =
        (addQuad [1, 2, 3] [4, 5, 6] unitSquare sampleColor 2).2.length :=
  ⟨rfl, (@buffer_lengths_stay_equal Int _).2.2.2.1 [1, 2, 3] [4, 5, 6] unitSquare sampleColor 2
    rfl⟩

/-- C5: from empty buffers, after a finite sequence of `addQuad` calls only both
lengths are 18 times the number of calls, hence multiples of 9; after a finite
sequence of `addVec` calls only both lengths are 3 times the number of calls. -/
theorem emission_lengths_are_multiples {α : Type} [Mul α] (cs : List (EmitCall α)) :
    ((∀ c ∈ cs, c.isQuad = true) →
        (runCalls cs ([], [])).1.length = 18 * cs.length ∧
          (runCalls cs ([], [])).2.length = 18 * cs.length ∧
          9 ∣ (runCalls cs ([], [])).1.length ∧ 9 ∣ (runCalls cs ([], [])).2.length) ∧
      ((∀ c ∈ cs, c.isVec = true) →
        (runCalls cs ([], [])).1.length = 3 * cs.length ∧
          (runCalls cs ([], [])).2.length = 3 * cs.length ∧
          3 ∣ (runCalls cs ([], [])).1.length ∧ 3 ∣ (runCalls cs ([], [])).2.length) := by
  constructor
  · intro h
    obtain ⟨h1, h2⟩ := runCalls_length_quads cs ([], []) h
    simp only [List.length_nil, Nat.zero_add] at h1 h2
    refine ⟨h1, h2, ?_, ?_⟩
    · rw [h1]; exact ⟨2 * cs.length, by ring⟩
    · rw [h2]; exact ⟨2 * cs.length, by ring⟩
  · intro h
    obtain ⟨h1, h2⟩ := runCalls_length_vecs cs ([], []) h
    simp only [List.length_nil, Nat.zero_add] at h1 h2
    exact ⟨h1, h2, ⟨cs.length, h1⟩, ⟨cs.length, h2⟩⟩

/-- C5, at two quads of the unit square and at two points. -/
theorem emission_lengths_are_multiples_witness :
    ((runCalls [EmitCall.quad unitSquare sampleColor 2, EmitCall.quad unitSquare sampleColor 3]
          ([], [])).1.length = 18 * 2 ∧
        9 ∣ (runCalls [EmitCall.quad unitSquare sampleColor 2,
          EmitCall.quad unitSquare sampleColor 3] ([], [])).2.length) ∧
      ((runCalls [EmitCall.vec sampleColor sampleColor 2, EmitCall.vec sampleColor sampleColor 3]
          ([], [])).1.length = 3 * 2 ∧
        3 ∣ (runCalls [EmitCall.vec sampleColor sampleColor 2,
          EmitCall.vec sampleColor sampleColor 3] ([], [])).2.length) := by
  have hq := (emission_lengths_are_multiples
    [EmitCall.quad unitSquare sampleColor 2, EmitCall.quad unitSquare sampleColor 3]).1
    (by simp [EmitCall.isQuad])
  have hv := (emission_lengths_are_multiples
    [EmitCall.vec sampleColor sampleColor 2, EmitCall.vec sampleColor sampleColor 3]).2
    (by simp [EmitCall.isVec])
  exact ⟨⟨hq.1, hq.2.2.2⟩, ⟨hv.1, hv.2.2.2⟩⟩

/-! ## Buffer handle -/

/-- C6: when `setupBuffer` returns a non-zero handle `h`, `mBuffer` is `h`
afterwards, and through every later sequence of widget attachments (any widget
or none, reporting any id) and `setupBuffer` calls, every `setupBuffer` returns
`h` and `mBuffer` stays `h`; no call of `setupBuffer` changes a non-zero
`mBuffer`. -/
theorem setupBuffer_handle_is_kept (p : LockedObjPainter) (h : GLuint) (hne : h ≠ 0)
    (hret : p.setupBuffer.1 = h) :
    p.setupBuffer.2.mBuffer = h ∧
      (∀ ops : List HandleOp,
        (runHandleOps ops p.setupBuffer.2).1 = List.replicate (ops.count HandleOp.setup) h ∧
          (runHandleOps ops p.setupBuffer.2).2.mBuffer = h) ∧
      (∀ q : LockedObjPainter, q.mBuffer ≠ 0 → q.setupBuffer.2.mBuffer = q.mBuffer) := by
  have hb : p.setupBuffer.2.mBuffer = h := by
    rw [← hret]; rfl
  refine ⟨hb, ?_, ?_⟩
  · intro ops
    have hr := runHandleOps_of_ne_zero ops p.setupBuffer.2 (by rw [hb]; exact hne)
    rw [hb] at hr
    exact hr
  · intro q hq
    rw [setupBuffer_of_ne_zero q hq]

/-- C6, at a painter built with handle 0 and a widget reporting 5: the handle
becomes 5 and stays 5 when another widget is attached, when the widget is
detached, and across further `setupBuffer` calls. -/
theorem setupBuffer_handle_is_kept_witness :
    samplePainter.setupBuffer.1 = 5 ∧
      samplePainter.setupBuffer.2.mBuffer = 5 ∧
      (runHandleOps [.setup, .attach (some ⟨9⟩), .setup, .attach none, .setup]
        samplePainter.setupBuffer.2).1 = [5, 5, 5] ∧
      (runHandleOps [.setup, .attach (some ⟨9⟩), .setup, .attach none, .setup]
        samplePainter.setupBuffer.2).2.mBuffer = 5 := by
  have w := setupBuffer_handle_is_kept samplePainter 5 (by decide) rfl
  exact ⟨rfl, w.1,
    (w.2.1 [.setup, .attach (some ⟨9⟩), .setup, .attach none, .setup]).1,
    (w.2.1 [.setup, .attach (some ⟨9⟩), .setup, .attach none, .setup]).2⟩

/-- C9: `setupBuffer` is defined on every painter by three cases.  With a
non-zero `mBuffer` it returns `mBuffer` and changes nothing, whatever widget is
attached; with `mBuffer` zero and a widget attached it sets `mBuffer` to the
widget's `getBufferId()` and returns that value; with `mBuffer` zero and no
widget it returns 0 and changes nothing.  In every case the fields other than
`mBuffer` are as before. -/
theorem setupBuffer_three_cases (p : LockedObjPainter) :
    (p.mBuffer ≠ 0 →
        p.setupBuffer = (p.mBuffer, p) ∧
          ∀ widget : Option GLWidget,
            (p.attachGLWidget widget).setupBuffer = (p.mBuffer, p.attachGLWidget widget)) ∧
      (p.mBuffer = 0 → ∀ w : GLWidget, p.mGlWidget = some w →
        p.setupBuffer = (w.getBufferId, { p with mBuffer := w.getBufferId })) ∧
      (p.mBuffer = 0 → p.mGlWidget = none → p.setupBuffer = (0, p)) ∧
      (p.setupBuffer.2.toPainter = p.toPainter ∧
        p.setupBuffer.2.mRequestUpdate = p.mRequestUpdate ∧
        p.setupBuffer.2.mObject = p.mObject ∧
        p.setupBuffer.2.mObjIndex = p.mObjIndex) ∧
      p.setupBuffer.1 = p.setupBuffer.2.mBuffer := by
  refine ⟨?_, ?_, ?_, ?_, rfl⟩
  · intro h
    refine ⟨setupBuffer_of_ne_zero p h, fun widget => ?_⟩
    exact setupBuffer_of_ne_zero (p.attachGLWidget widget) h
  · intro h w hw
    simp [LockedObjPainter.setupBuffer, h, hw]
  · intro h hw
    simp only [LockedObjPainter.setupBuffer, h, hw, if_true]
  · unfold LockedObjPainter.setupBuffer
    by_cases h : p.mBuffer = 0
    · cases hw : p.mGlWidget <;> simp [h]
    · simp [h]

/-- C9, one painter for each of the three cases: handle 3 already set, handle 0
with a widget reporting 5, and handle 0 with no widget. -/
theorem setupBuffer_three_cases_witness :
    ((LockedObjPainter.LockedObjPainter 3 none).attachGLWidget (some ⟨5⟩)).setupBuffer.1 = 3 ∧
      samplePainter.setupBuffer =
        (5, ((LockedObjPainter.LockedObjPainter 5 none).attachGLWidget (some ⟨5⟩))) ∧
      (LockedObjPainter.LockedObjPainter 0 none).setupBuffer =
        (0, LockedObjPainter.LockedObjPainter 0 none) := by
  refine ⟨?_, ?_, ?_⟩
  · exact congrArg Prod.fst
      (((setupBuffer_three_cases (LockedObjPainter.LockedObjPainter 3 none)).1
        (by decide)).2 (some ⟨5⟩))
  · exact (setupBuffer_three_cases samplePainter).2.1 rfl ⟨5⟩ rfl
  · exact (setupBuffer_three_cases (LockedObjPainter.LockedObjPainter 0 none)).2.2.1 rfl rfl

end Manta
